import Mathlib

/-!
Shallow embedding of the Torre Automation API (`src/main.py`) and proofs of
the specification claims about it.

Conventions of the embedding:
* dates and timestamps are integers (days since the epoch; the SQL sentinel
  `'1970-01-01'::timestamp` is `0`);
* nullable SQL columns and optional Python values are `Option`;
* the database connection (`poseidon`) is a record of the warehouse tables
  together with a failure oracle: `execute_query` either raises (the oracle
  returns an error message for that query) or evaluates the query against
  the tables;
* Python dict responses become inductive result types, one constructor for
  the success payload and one for the `{success: false, error: e}` body.
-/

/-- Boolean test: `pre` is a prefix of `l` (character lists). -/
def isPrefC : List Char → List Char → Bool
  | [], _ => true
  | _ :: _, [] => false
  | a :: as, b :: bs => a == b && isPrefC as bs

/-- Boolean test: `kw` occurs as a contiguous substring of `l`. -/
def isSubC (kw : List Char) : List Char → Bool
  | [] => isPrefC kw []
  | b :: bs => isPrefC kw (b :: bs) || isSubC kw bs

/-- Python's `str.lower()` (as `String.toLower`: character-wise lowering),
taken out to the character list so that it evaluates by kernel reduction. -/
def pyLower (s : String) : List Char :=
  s.toList.map Char.toLower

/-- The Python `kw in text` substring containment test
(`text` already lowered to a character list). -/
def strIn (kw : String) (text : List Char) : Bool :=
  isSubC kw.toList text

/-- Deduplication keeping the first occurrence (SQL `SELECT DISTINCT`). -/
def dedupF [DecidableEq α] : List α → List α
  | [] => []
  | a :: l => a :: (dedupF l).filter (fun b => b != a)

/-- Insert into a list sorted descending by `key` (helper for `ORDER BY ... DESC`). -/
def insertDesc (key : α → Int) (a : α) : List α → List α
  | [] => [a]
  | b :: bs => if key b ≤ key a then a :: b :: bs else b :: insertDesc key a bs

/-- Sort descending by `key` (SQL `ORDER BY key DESC`). -/
def sortDesc (key : α → Int) : List α → List α
  | [] => []
  | a :: l => insertDesc key a (sortDesc key l)

/-- `build_job_link` from `src/main.py`. -/
def build_job_link (hash_id : String) : String :=
  "https://torre.ai/post/" ++ hash_id

/-- `detect_industry` from `src/main.py`: keyword classification of
(vacancy name, company name) into an industry label. -/
def detect_industry (vacancy_name : String) (company_name : String) : String :=
  let text := pyLower (vacancy_name ++ " " ++ company_name)
  if ["developer", "engineer", "software", "programmer", "tech", "data", "cloud", "devops", "frontend", "backend"].any (fun word => strIn word text) then
    "technology"
  else if ["sales", "marketing", "account", "business development", "growth"].any (fun word => strIn word text) then
    "sales_marketing"
  else if ["finance", "accountant", "financial", "controller", "cfo"].any (fun word => strIn word text) then
    "finance"
  else if ["health", "medical", "doctor", "nurse", "clinical"].any (fun word => strIn word text) then
    "healthcare"
  else if ["design", "ux", "ui", "graphic", "creative"].any (fun word => strIn word text) then
    "design"
  else if ["human resources", "hr", "operations", "admin"].any (fun word => strIn word text) then
    "operations_hr"
  else if ["customer", "support", "service", "success"].any (fun word => strIn word text) then
    "customer_service"
  else
    "general"

/-- The classifier's category/keyword table, in the priority order the code
tests the categories (read off the branches of `detect_industry`). -/
def CLASSIFIER_KEYWORDS : List (String × List String) :=
  [("technology", ["developer", "engineer", "software", "programmer", "tech", "data", "cloud", "devops", "frontend", "backend"]),
   ("sales_marketing", ["sales", "marketing", "account", "business development", "growth"]),
   ("finance", ["finance", "accountant", "financial", "controller", "cfo"]),
   ("healthcare", ["health", "medical", "doctor", "nurse", "clinical"]),
   ("design", ["design", "ux", "ui", "graphic", "creative"]),
   ("operations_hr", ["human resources", "hr", "operations", "admin"]),
   ("customer_service", ["customer", "support", "service", "success"])]

/-- First category of `table` with a keyword occurring in `text`; `"general"`
when none matches (the spec's description of the classification algorithm). -/
def firstMatch (text : List Char) : List (String × List String) → String
  | [] => "general"
  | (cat, kws) :: rest =>
      if kws.any (fun word => strIn word text) then cat else firstMatch text rest

/-- The eight fixed industry categories. -/
def INDUSTRY_CATEGORIES : List String :=
  ["technology", "sales_marketing", "finance", "healthcare", "design",
   "operations_hr", "customer_service", "general"]

/-- The static category/keyword listing of `GET /industries`
(category key, display name, keyword list), from `src/main.py`. -/
def get_available_industries : List (String × String × List String) :=
  [("technology", "Technology", ["developer", "engineer", "software", "tech", "data", "cloud"]),
   ("sales_marketing", "Sales & Marketing", ["sales", "marketing", "account", "growth"]),
   ("finance", "Finance", ["finance", "accountant", "financial", "cfo"]),
   ("healthcare", "Healthcare", ["health", "medical", "doctor", "nurse"]),
   ("design", "Design", ["design", "ux", "ui", "graphic", "creative"]),
   ("operations_hr", "Operations & HR", ["hr", "operations", "admin"]),
   ("customer_service", "Customer Service", ["customer", "support", "service"]),
   ("general", "General", [])]

/-- Keyword list the `/industries` endpoint reports for a category. -/
def industriesKeywords (cat : String) : Option (List String) :=
  (get_available_industries.find? (fun e => e.1 = cat)).map (fun e => e.2.2)

/-- Keyword list the classifier tests for a category (`"general"` has none). -/
def classifierKeywords (cat : String) : Option (List String) :=
  if cat = "general" then some [] else
  (CLASSIFIER_KEYWORDS.find? (fun e => e.1 = cat)).map (fun e => e.2)

/-- A row of `poseidon.mart_jobs` (the columns this service reads). -/
structure Job where
  hash_id : String
  objective : Option String
  locale : String
  published_date : Int
  organization_name : Option String
  poster_gg_id : Nat
  status : String
  review : Option String
  valuable_appls : Int
  business_line : Option String
  poster_first_post : Int
  opportunity_id : Nat
deriving DecidableEq

/-- A row of `poseidon.mart_genomes` (the columns this service reads). -/
structure Genome where
  gg_id : Nat
  name : String
  email : String
deriving DecidableEq

/-- A row of `poseidon.mart_applications` (the columns this service reads). -/
structure Application where
  opportunity_id : Nat
  disqualified_date : Option Int
  mm_date : Option Int
deriving DecidableEq

/-- The warehouse state a query runs against (`current_date` included). -/
structure DB where
  today : Int
  jobs : List Job
  genomes : List Genome
  applications : List Application

/-- Identifier of each query the service can send to the warehouse. -/
inductive QueryId where
  | newTs (days : Int)
  | less6 (days : Int)
  | noActivity (inactive_days : Int) (lookback_days : Int)
  | client (email : String)
deriving DecidableEq

/-- The `poseidon` connection: warehouse tables plus a failure oracle —
`fail q = some e` means `execute_query` raises with message `e` on query `q`. -/
structure Poseidon where
  db : DB
  fail : QueryId → Option String

/-- `(mj.business_line <> 'torre_os' OR mj.business_line IS NULL)` under SQL
three-valued logic. -/
def business_line_ok (j : Job) : Bool :=
  match j.business_line with
  | none => true
  | some b => b != "torre_os"

/-- The `INNER JOIN poseidon.mart_genomes mg ON mj.poster_gg_id = mg.gg_id`. -/
def joinRows (db : DB) : List (Job × Genome) :=
  db.jobs.flatMap (fun j =>
    (db.genomes.filter (fun g => j.poster_gg_id == g.gg_id)).map (fun g => (j, g)))

/-- `WHERE` clause of the `new-ts-posting` query. -/
def new_ts_pred (db : DB) (days : Int) (j : Job) : Bool :=
  j.published_date == j.poster_first_post
  && j.status == "open"
  && decide (db.today - days ≤ j.published_date)
  && decide (j.published_date < db.today + 1)
  && business_line_ok j

/-- Projected row of the `new-ts-posting` query. -/
structure NewTsRow where
  ts_name : String
  ts_email : String
  vacancy_name : Option String
  hash_id : String
  locale : String
  published_date : Int
  company_name : Option String
  poster_gg_id : Nat
  review_status : Option String
deriving DecidableEq

/-- `SELECT` projection of the `new-ts-posting` query. -/
def projNewTs (j : Job) (g : Genome) : NewTsRow :=
  { ts_name := g.name, ts_email := g.email, vacancy_name := j.objective,
    hash_id := j.hash_id, locale := j.locale, published_date := j.published_date,
    company_name := j.organization_name, poster_gg_id := j.poster_gg_id,
    review_status := j.review }

/-- Result set of the `new-ts-posting` query
(`SELECT DISTINCT ... ORDER BY published_date DESC`). -/
def new_ts_rows (db : DB) (days : Int) : List NewTsRow :=
  sortDesc (fun r => r.published_date)
    (dedupF ((joinRows db).filterMap
      (fun p => if new_ts_pred db days p.1 then some (projNewTs p.1 p.2) else none)))

/-- `WHERE` clause of the `less-than-6` query. -/
def less6_pred (db : DB) (days : Int) (j : Job) : Bool :=
  j.review == some "approved"
  && j.status == "open"
  && decide (j.valuable_appls < 6)
  && decide (db.today - days ≤ j.published_date)
  && decide (j.published_date < db.today + 1)
  && business_line_ok j

/-- Projected row of the `less-than-6` query. -/
structure LessThan6Row where
  ts_name : String
  ts_email : String
  vacancy_name : Option String
  hash_id : String
  locale : String
  published_date : Int
  company_name : Option String
  poster_gg_id : Nat
  valuable_appls : Int
deriving DecidableEq

/-- `SELECT` projection of the `less-than-6` query. -/
def projLess6 (j : Job) (g : Genome) : LessThan6Row :=
  { ts_name := g.name, ts_email := g.email, vacancy_name := j.objective,
    hash_id := j.hash_id, locale := j.locale, published_date := j.published_date,
    company_name := j.organization_name, poster_gg_id := j.poster_gg_id,
    valuable_appls := j.valuable_appls }

/-- Result set of the `less-than-6` query. -/
def less6_rows (db : DB) (days : Int) : List LessThan6Row :=
  sortDesc (fun r => r.published_date)
    (dedupF ((joinRows db).filterMap
      (fun p => if less6_pred db days p.1 then some (projLess6 p.1 p.2) else none)))

/-- The derived activity aggregate of the `no-activity` query:
`MAX(GREATEST(COALESCE(disqualified_date, epoch), COALESCE(mm_date, epoch)))`
grouped by `opportunity_id`; `none` when the posting has no activity rows
(the `LEFT JOIN` produces SQL `NULL` there). -/
def last_activity (apps : List Application) (oid : Nat) : Option Int :=
  match (apps.filter (fun a => a.opportunity_id == oid)).map
      (fun a => max (a.disqualified_date.getD 0) (a.mm_date.getD 0)) with
  | [] => none
  | t :: ts => some (ts.foldl max t)

/-- `WHERE` clause of the `no-activity` query (note: the SQL has no upper
bound `published_date < current_date + 1 day`, only the lower bound). -/
def no_activity_pred (db : DB) (inactive_days : Int) (lookback_days : Int) (j : Job) : Bool :=
  j.review == some "approved"
  && j.status == "open"
  && decide (db.today - lookback_days ≤ j.published_date)
  && business_line_ok j
  && (match last_activity db.applications j.opportunity_id with
      | none => true
      | some t => decide (t < db.today - inactive_days))

/-- Projected row of the `no-activity` query. -/
structure NoActivityRow where
  ts_name : String
  ts_email : String
  vacancy_name : Option String
  hash_id : String
  locale : String
  published_date : Int
  company_name : Option String
  poster_gg_id : Nat
deriving DecidableEq

/-- `SELECT` projection of the `no-activity` query. -/
def projNoAct (j : Job) (g : Genome) : NoActivityRow :=
  { ts_name := g.name, ts_email := g.email, vacancy_name := j.objective,
    hash_id := j.hash_id, locale := j.locale, published_date := j.published_date,
    company_name := j.organization_name, poster_gg_id := j.poster_gg_id }

/-- Result set of the `no-activity` query. -/
def no_activity_rows (db : DB) (inactive_days : Int) (lookback_days : Int) :
    List NoActivityRow :=
  sortDesc (fun r => r.published_date)
    (dedupF ((joinRows db).filterMap
      (fun p => if no_activity_pred db inactive_days lookback_days p.1
                then some (projNoAct p.1 p.2) else none)))

/-- Python `r[i] if r[i] else default` on an optional string: `None` and the
empty string are both replaced by the default. -/
def orDefault (v : Option String) (d : String) : String :=
  match v with
  | none => d
  | some s => if s = "" then d else s

/-- Response record of the `new-ts-posting` endpoint. -/
structure NewTsRecord where
  ts_name : String
  ts_email : String
  vacancy_name : String
  vacancy_link : String
  locale : String
  published_date : Int
  company_name : String
  poster_gg_id : Nat
  review_status : Option String
  industry : String
  flag : String
deriving DecidableEq

/-- Row shaping of the `new-ts-posting` endpoint. -/
def shapeNewTs (r : NewTsRow) : NewTsRecord :=
  let vacancy_name := orDefault r.vacancy_name "Untitled Position"
  let company_name := orDefault r.company_name "Company"
  { ts_name := r.ts_name, ts_email := r.ts_email, vacancy_name := vacancy_name,
    vacancy_link := build_job_link r.hash_id, locale := r.locale,
    published_date := r.published_date, company_name := company_name,
    poster_gg_id := r.poster_gg_id, review_status := r.review_status,
    industry := detect_industry vacancy_name company_name, flag := "new_ts_posting" }

/-- Response record of the `less-than-6` endpoint. -/
structure LessThan6Record where
  ts_name : String
  ts_email : String
  vacancy_name : String
  vacancy_link : String
  locale : String
  published_date : Int
  company_name : String
  poster_gg_id : Nat
  valuable_appls : Int
  industry : String
  flag : String
deriving DecidableEq

/-- Row shaping of the `less-than-6` endpoint. -/
def shapeLess6 (r : LessThan6Row) : LessThan6Record :=
  let vacancy_name := orDefault r.vacancy_name "Untitled Position"
  let company_name := orDefault r.company_name "Company"
  { ts_name := r.ts_name, ts_email := r.ts_email, vacancy_name := vacancy_name,
    vacancy_link := build_job_link r.hash_id, locale := r.locale,
    published_date := r.published_date, company_name := company_name,
    poster_gg_id := r.poster_gg_id, valuable_appls := r.valuable_appls,
    industry := detect_industry vacancy_name company_name, flag := "less_than_6" }

/-- Response record of the `no-activity` endpoint. -/
structure NoActivityRecord where
  ts_name : String
  ts_email : String
  vacancy_name : String
  vacancy_link : String
  locale : String
  published_date : Int
  company_name : String
  poster_gg_id : Nat
  industry : String
  flag : String
deriving DecidableEq

/-- Row shaping of the `no-activity` endpoint. -/
def shapeNoAct (r : NoActivityRow) : NoActivityRecord :=
  let vacancy_name := orDefault r.vacancy_name "Untitled Position"
  let company_name := orDefault r.company_name "Company"
  { ts_name := r.ts_name, ts_email := r.ts_email, vacancy_name := vacancy_name,
    vacancy_link := build_job_link r.hash_id, locale := r.locale,
    published_date := r.published_date, company_name := company_name,
    poster_gg_id := r.poster_gg_id,
    industry := detect_industry vacancy_name company_name, flag := "no_activity" }

/-- Response body of `GET /flags/new-ts-posting`: success payload or the
`{success: false, error: e}` body. -/
inductive NewTsResult where
  | ok (flag : String) (description : String) (count : Nat) (days_lookback : Int)
       (data : List NewTsRecord)
  | err (error : String)
deriving DecidableEq

/-- Python `.get("count", 0)` on a `new-ts-posting` response body. -/
def NewTsResult.getCount : NewTsResult → Nat
  | .ok _ _ count _ _ => count
  | .err _ => 0

/-- The `success` field of a `new-ts-posting` response body. -/
def NewTsResult.success : NewTsResult → Bool
  | .ok _ _ _ _ _ => true
  | .err _ => false

/-- Response body of `GET /flags/less-than-6`. -/
inductive LessThan6Result where
  | ok (flag : String) (description : String) (count : Nat) (days_lookback : Int)
       (data : List LessThan6Record)
  | err (error : String)
deriving DecidableEq

/-- Python `.get("count", 0)` on a `less-than-6` response body. -/
def LessThan6Result.getCount : LessThan6Result → Nat
  | .ok _ _ count _ _ => count
  | .err _ => 0

/-- The `success` field of a `less-than-6` response body. -/
def LessThan6Result.success : LessThan6Result → Bool
  | .ok _ _ _ _ _ => true
  | .err _ => false

/-- Response body of `GET /flags/no-activity`. -/
inductive NoActivityResult where
  | ok (flag : String) (description : String) (count : Nat)
       (inactive_days_threshold : Int) (lookback_days : Int)
       (data : List NoActivityRecord)
  | err (error : String)
deriving DecidableEq

/-- Python `.get("count", 0)` on a `no-activity` response body. -/
def NoActivityResult.getCount : NoActivityResult → Nat
  | .ok _ _ count _ _ _ => count
  | .err _ => 0

/-- The `success` field of a `no-activity` response body. -/
def NoActivityResult.success : NoActivityResult → Bool
  | .ok _ _ _ _ _ _ => true
  | .err _ => false

/-- `get_new_ts_posting` from `src/main.py`. -/
def get_new_ts_posting (p : Poseidon) (days : Int) : NewTsResult :=
  match p.fail (.newTs days) with
  | some e => .err e
  | none =>
      let data := (new_ts_rows p.db days).map shapeNewTs
      .ok "new_ts_posting"
        "TSs posting for the first time (includes approved & unapproved)"
        data.length days data

/-- `get_less_than_6` from `src/main.py`. -/
def get_less_than_6 (p : Poseidon) (days : Int) : LessThan6Result :=
  match p.fail (.less6 days) with
  | some e => .err e
  | none =>
      let data := (less6_rows p.db days).map shapeLess6
      .ok "less_than_6"
        "Approved openings with less than 6 relevant applicants"
        data.length days data

/-- `get_no_activity` from `src/main.py`. -/
def get_no_activity (p : Poseidon) (inactive_days : Int) (lookback_days : Int) :
    NoActivityResult :=
  match p.fail (.noActivity inactive_days lookback_days) with
  | some e => .err e
  | none =>
      let data := (no_activity_rows p.db inactive_days lookback_days).map shapeNoAct
      .ok "no_activity"
        ("Approved jobs with no activity in pipeline for " ++ toString inactive_days ++ "+ days")
        data.length inactive_days lookback_days data

/-- Response body of `GET /flags/all-priorities` (`flags` mapping plus
`summary` flattened into fields). -/
structure AllPrioritiesResult where
  success : Bool
  new_ts_posting : NewTsResult
  less_than_6 : LessThan6Result
  no_activity : NoActivityResult
  total_clients_to_contact : Nat
  breakdown_new_ts_posting : Nat
  breakdown_less_than_6 : Nat
  breakdown_no_activity : Nat
deriving DecidableEq

/-- `get_all_high_priority_flags` from `src/main.py`. -/
def get_all_high_priority_flags (p : Poseidon) (days : Int) : AllPrioritiesResult :=
  let new_ts := get_new_ts_posting p days
  let less_6 := get_less_than_6 p days
  let no_act := get_no_activity p 7 days
  { success := true,
    new_ts_posting := new_ts, less_than_6 := less_6, no_activity := no_act,
    total_clients_to_contact := new_ts.getCount + less_6.getCount + no_act.getCount,
    breakdown_new_ts_posting := new_ts.getCount,
    breakdown_less_than_6 := less_6.getCount,
    breakdown_no_activity := no_act.getCount }

/-- A row of the client-lookup query result. -/
structure ClientRow where
  name : String
  email : String
  gg_id : Nat
  total_jobs : Nat
  open_jobs : Nat
  first_job_date : Option Int
  last_job_date : Option Int
deriving DecidableEq

/-- SQL `MIN` over a group (NULL on the empty group). -/
def minDate : List Int → Option Int
  | [] => none
  | t :: ts => some (ts.foldl min t)

/-- SQL `MAX` over a group (NULL on the empty group). -/
def maxDate : List Int → Option Int
  | [] => none
  | t :: ts => some (ts.foldl max t)

/-- Result set of the client-lookup query: genomes with the given email,
left-joined to their jobs and grouped by `(name, email, gg_id)` with
`COUNT(DISTINCT ...)` and `MIN`/`MAX` aggregates. -/
def client_rows (db : DB) (email : String) : List ClientRow :=
  let keys := dedupF ((db.genomes.filter (fun g => g.email == email)).map
    (fun g => (g.name, g.email, g.gg_id)))
  keys.map (fun k =>
    let posted := db.jobs.filter (fun j => j.poster_gg_id == k.2.2)
    { name := k.1, email := k.2.1, gg_id := k.2.2,
      total_jobs := (dedupF (posted.map (fun j => j.hash_id))).length,
      open_jobs := (dedupF ((posted.filter (fun j => j.status == "open")).map
        (fun j => j.hash_id))).length,
      first_job_date := minDate (posted.map (fun j => j.published_date)),
      last_job_date := maxDate (posted.map (fun j => j.published_date)) })

/-- The `data` payload of a successful client lookup. -/
structure ClientData where
  name : String
  email : String
  gg_id : Nat
  total_jobs_posted : Nat
  open_jobs : Nat
  first_job_date : Option Int
  last_job_date : Option Int
deriving DecidableEq

/-- Response of `GET /client/{email}`: success payload, the HTTP-404
`NotFound` signal, or the `{success: false, error: e}` body. -/
inductive ClientResult where
  | ok (data : ClientData)
  | notFound
  | err (error : String)
deriving DecidableEq

/-- `get_client_details` from `src/main.py`. -/
def get_client_details (p : Poseidon) (email : String) : ClientResult :=
  match p.fail (.client email) with
  | some e => .err e
  | none =>
      match client_rows p.db email with
      | [] => .notFound
      | r :: _ =>
          .ok { name := r.name, email := r.email, gg_id := r.gg_id,
                total_jobs_posted := r.total_jobs, open_jobs := r.open_jobs,
                first_job_date := r.first_job_date, last_job_date := r.last_job_date }

/-- The constant `available_flags` list of the health endpoint. -/
def AVAILABLE_FLAGS : List String :=
  ["new-ts-posting", "less-than-6", "less-than-6-24h", "6-ruled-out",
   "less-than-6-reach", "new-reach", "no-activity"]

/-- Response body of `GET /`. -/
structure HealthResponse where
  status : String
  service : String
  timestamp : String
  version : String
  available_flags : List String
deriving DecidableEq

/-- `health_check` from `src/main.py` (the varying `datetime.now()` value is
the `now` argument). -/
def health_check (now : String) : HealthResponse :=
  { status := "running", service := "Torre Automation API", timestamp := now,
    version := "2.0.0", available_flags := AVAILABLE_FLAGS }

/-- The routes the FastAPI app exposes (the `@app.get` decorators). -/
def EXPOSED_ROUTES : List String :=
  ["/", "/flags/new-ts-posting", "/flags/less-than-6", "/flags/no-activity",
   "/flags/all-priorities", "/client/{email}", "/industries"]

/-- Whether every keyword the `/industries` endpoint lists for `cat` is also
among the keywords the classifier tests for `cat`. -/
def keywordsSubset (cat : String) : Bool :=
  match industriesKeywords cat, classifierKeywords cat with
  | some ks, some cs => ks.all (fun k => cs.contains k)
  | _, _ => false

/-- Example poster profile. -/
def genomeA : Genome :=
  { gg_id := 1, name := "Ana", email := "ana@x.co" }

/-- Example posting: approved, open, 5 valuable applicants, published within
the window, no `business_line`, first-ever post of its poster. -/
def job5 : Job :=
  { hash_id := "h5", objective := some "Writer", locale := "en",
    published_date := 95, organization_name := some "Acme", poster_gg_id := 1,
    status := "open", review := some "approved", valuable_appls := 5,
    business_line := none, poster_first_post := 95, opportunity_id := 10 }

/-- Like `job5` but with 6 valuable applicants. -/
def job6 : Job :=
  { job5 with hash_id := "h6", valuable_appls := 6, opportunity_id := 11 }

/-- Example warehouse: two postings, one poster, no activity rows. -/
def exampleDB : DB :=
  { today := 100, jobs := [job5, job6], genomes := [genomeA], applications := [] }

/-- Example posting published in the future (after `today + 1`). -/
def jobFuture : Job :=
  { hash_id := "hf", objective := some "Chef", locale := "en",
    published_date := 200, organization_name := some "Bistro", poster_gg_id := 1,
    status := "open", review := some "approved", valuable_appls := 0,
    business_line := none, poster_first_post := 200, opportunity_id := 12 }

/-- Example warehouse holding only the future-dated posting. -/
def futureDB : DB :=
  { today := 100, jobs := [jobFuture], genomes := [genomeA], applications := [] }

/-- Connection to `exampleDB` on which no query fails. -/
def pOK : Poseidon :=
  { db := exampleDB, fail := fun _ => none }

/-- Connection to `exampleDB` on which the `new-ts-posting` query raises. -/
def pFailNew : Poseidon :=
  { db := exampleDB,
    fail := fun q => match q with
      | QueryId.newTs _ => some "boom"
      | _ => none }

/-- For every text, `firstMatch` yields a listed category or `"general"`. -/
theorem firstMatch_mem (text : List Char) (l : List (String × List String)) :
    firstMatch text l ∈ l.map Prod.fst ++ ["general"] := by
  induction l with
  | nil => simp [firstMatch]
  | cons p rest ih =>
      obtain ⟨cat, kws⟩ := p
      by_cases h : kws.any (fun word => strIn word text) = true
      · simp [firstMatch, h]
      · simp only [firstMatch, h, if_false, List.map_cons, List.cons_append, List.mem_cons]
        exact Or.inr (by simpa using ih)

/-- C1: the industry classifier is a pure total function over any two strings:
it builds the lowercased text from title and organization, tests the category
keyword lists for substring membership in the fixed priority order
technology, sales_marketing, finance, healthcare, design, operations_hr,
customer_service, returns the first category with a substring match and
`"general"` when none matches; empty inputs yield `"general"`, and
`detect_industry "Sales Engineer" "Acme" = "technology"`. -/
theorem detect_industry_spec :
    (∀ t o, detect_industry t o = firstMatch (pyLower (t ++ " " ++ o)) CLASSIFIER_KEYWORDS)
    ∧ (∀ t o, detect_industry t o ∈ INDUSTRY_CATEGORIES)
    ∧ detect_industry "" "" = "general"
    ∧ detect_industry "Sales Engineer" "Acme" = "technology" := by
  have hfm : ∀ t o, detect_industry t o = firstMatch (pyLower (t ++ " " ++ o)) CLASSIFIER_KEYWORDS :=
    fun t o => rfl
  refine ⟨hfm, fun t o => ?_, by decide, by decide⟩
  rw [hfm]
  have := firstMatch_mem (pyLower (t ++ " " ++ o)) CLASSIFIER_KEYWORDS
  simpa [CLASSIFIER_KEYWORDS, INDUSTRY_CATEGORIES] using this

/-- Membership in `insertDesc`. -/
theorem mem_insertDesc (key : α → Int) (b : α) (l : List α) (a : α) :
    a ∈ insertDesc key b l ↔ a = b ∨ a ∈ l := by
  induction l with
  | nil => simp [insertDesc]
  | cons c cs ih =>
      unfold insertDesc
      by_cases h : key c ≤ key b
      · simp [h]
      · simp only [h, if_false, List.mem_cons, ih]
        tauto

/-- `sortDesc` is membership-preserving. -/
theorem mem_sortDesc (key : α → Int) (l : List α) (a : α) :
    a ∈ sortDesc key l ↔ a ∈ l := by
  induction l with
  | nil => simp [sortDesc]
  | cons c cs ih => simp [sortDesc, mem_insertDesc, ih]

/-- `dedupF` is membership-preserving. -/
theorem mem_dedupF [DecidableEq α] (l : List α) (a : α) :
    a ∈ dedupF l ↔ a ∈ l := by
  induction l with
  | nil => simp [dedupF]
  | cons x xs ih =>
      by_cases h : a = x
      · simp [dedupF, h]
      · simp [dedupF, List.mem_filter, bne_iff_ne, h, ih]

/-- `dedupF` sends only the empty list to the empty list. -/
theorem dedupF_eq_nil [DecidableEq α] (l : List α) :
    dedupF l = [] ↔ l = [] := by
  cases l <;> simp [dedupF]

/-- Membership in the jobs–genomes inner join. -/
theorem mem_joinRows (db : DB) (j : Job) (g : Genome) :
    (j, g) ∈ joinRows db ↔
      j ∈ db.jobs ∧ g ∈ db.genomes ∧ j.poster_gg_id = g.gg_id := by
  unfold joinRows
  simp only [List.mem_flatMap, List.mem_map, List.mem_filter, Prod.mk.injEq]
  constructor
  · rintro ⟨j', hj', g', ⟨hg', hpg⟩, hjj, hgg⟩
    subst hjj; subst hgg
    exact ⟨hj', hg', by simpa using hpg⟩
  · rintro ⟨hj, hg, hpg⟩
    exact ⟨j, hj, g, ⟨hg, by simpa using hpg⟩, rfl, rfl⟩

/-- Membership in the common query pipeline
(join, filter, project, `DISTINCT`, `ORDER BY ... DESC`). -/
theorem mem_query_rows {β : Type} [DecidableEq β] (db : DB) (pred : Job → Bool)
    (proj : Job → Genome → β) (key : β → Int) (r : β) :
    r ∈ sortDesc key (dedupF ((joinRows db).filterMap
        (fun p => if pred p.1 then some (proj p.1 p.2) else none))) ↔
      ∃ j g, j ∈ db.jobs ∧ g ∈ db.genomes ∧ j.poster_gg_id = g.gg_id ∧
        pred j = true ∧ proj j g = r := by
  rw [mem_sortDesc, mem_dedupF]
  simp only [List.mem_filterMap]
  constructor
  · rintro ⟨⟨j, g⟩, hmem, hif⟩
    rw [mem_joinRows] at hmem
    by_cases hp : pred j = true
    · rw [if_pos hp] at hif
      exact ⟨j, g, hmem.1, hmem.2.1, hmem.2.2, hp, Option.some.inj hif⟩
    · rw [if_neg hp] at hif
      cases hif
  · rintro ⟨j, g, hj, hg, hpg, hp, hr⟩
    exact ⟨(j, g), (mem_joinRows db j g).mpr ⟨hj, hg, hpg⟩, by rw [if_pos hp, hr]⟩

/-- Membership in the `new-ts-posting` result set. -/
theorem mem_new_ts_rows (db : DB) (days : Int) (r : NewTsRow) :
    r ∈ new_ts_rows db days ↔
      ∃ j g, j ∈ db.jobs ∧ g ∈ db.genomes ∧ j.poster_gg_id = g.gg_id ∧
        new_ts_pred db days j = true ∧ projNewTs j g = r := by
  unfold new_ts_rows
  exact mem_query_rows db (new_ts_pred db days) projNewTs (fun r => r.published_date) r

/-- Membership in the `less-than-6` result set. -/
theorem mem_less6_rows (db : DB) (days : Int) (r : LessThan6Row) :
    r ∈ less6_rows db days ↔
      ∃ j g, j ∈ db.jobs ∧ g ∈ db.genomes ∧ j.poster_gg_id = g.gg_id ∧
        less6_pred db days j = true ∧ projLess6 j g = r := by
  unfold less6_rows
  exact mem_query_rows db (less6_pred db days) projLess6 (fun r => r.published_date) r

/-- Membership in the `no-activity` result set. -/
theorem mem_no_activity_rows (db : DB) (inactive_days lookback_days : Int)
    (r : NoActivityRow) :
    r ∈ no_activity_rows db inactive_days lookback_days ↔
      ∃ j g, j ∈ db.jobs ∧ g ∈ db.genomes ∧ j.poster_gg_id = g.gg_id ∧
        no_activity_pred db inactive_days lookback_days j = true ∧ projNoAct j g = r := by
  unfold no_activity_rows
  exact mem_query_rows db (no_activity_pred db inactive_days lookback_days) projNoAct
    (fun r => r.published_date) r

/-- `business_line_ok` holds exactly when the line is absent or not `torre_os`. -/
theorem business_line_ok_iff (j : Job) :
    business_line_ok j = true ↔ j.business_line ≠ some "torre_os" := by
  unfold business_line_ok
  cases h : j.business_line with
  | none => simp [h]
  | some b => simp [bne_iff_ne]

/-- The `less-than-6` filter, spelled out as a proposition. -/
theorem less6_pred_iff (db : DB) (days : Int) (j : Job) :
    less6_pred db days j = true ↔
      j.review = some "approved" ∧ j.status = "open" ∧ j.valuable_appls < 6 ∧
      db.today - days ≤ j.published_date ∧ j.published_date < db.today + 1 ∧
      j.business_line ≠ some "torre_os" := by
  simp [less6_pred, Bool.and_eq_true, decide_eq_true_eq, beq_iff_eq,
    business_line_ok_iff, and_assoc]

/-- The `new-ts-posting` filter, spelled out as a proposition. -/
theorem new_ts_pred_iff (db : DB) (days : Int) (j : Job) :
    new_ts_pred db days j = true ↔
      j.published_date = j.poster_first_post ∧ j.status = "open" ∧
      db.today - days ≤ j.published_date ∧ j.published_date < db.today + 1 ∧
      j.business_line ≠ some "torre_os" := by
  simp [new_ts_pred, Bool.and_eq_true, decide_eq_true_eq, beq_iff_eq,
    business_line_ok_iff, and_assoc]

/-- C4: a posting appears in the `less_than_6` flag exactly when it joins a
poster profile and satisfies `review = approved`, `status = open`,
`valuable_appls < 6`, `business_line` absent or different from `torre_os`,
and a publish date in `[today - days, today + 1)`; in particular the example
posting with 5 valuable applicants is included and its copy with 6 is not. -/
theorem less6_membership_spec :
    (∀ db days r, r ∈ less6_rows db days ↔
      ∃ j g, j ∈ db.jobs ∧ g ∈ db.genomes ∧ j.poster_gg_id = g.gg_id ∧
        j.review = some "approved" ∧ j.status = "open" ∧ j.valuable_appls < 6 ∧
        db.today - days ≤ j.published_date ∧ j.published_date < db.today + 1 ∧
        j.business_line ≠ some "torre_os" ∧ projLess6 j g = r)
    ∧ projLess6 job5 genomeA ∈ less6_rows exampleDB 30
    ∧ projLess6 job6 genomeA ∉ less6_rows exampleDB 30 := by
  refine ⟨fun db days r => ?_, by decide, by decide⟩
  rw [mem_less6_rows]
  apply exists_congr; intro j
  apply exists_congr; intro g
  rw [less6_pred_iff]
  tauto

/-- C3: a posting with no activity rows at all, `review = approved`,
`status = open`, `business_line` absent or different from `torre_os`, and a
publish date within the lookback window, is included by the `no_activity`
flag: its derived last-activity aggregate is SQL NULL (`none`) and the
left-joined NULL qualifies as inactive. -/
theorem no_activity_null_activity_included (db : DB) (inactive_days lookback_days : Int)
    (j : Job) (g : Genome)
    (hj : j ∈ db.jobs) (hg : g ∈ db.genomes) (hpg : j.poster_gg_id = g.gg_id)
    (hnone : db.applications.filter (fun a => a.opportunity_id == j.opportunity_id) = [])
    (hrev : j.review = some "approved") (hst : j.status = "open")
    (hbl : j.business_line ≠ some "torre_os")
    (hlo : db.today - lookback_days ≤ j.published_date)
    (hhi : j.published_date < db.today + 1) :
    last_activity db.applications j.opportunity_id = none
    ∧ projNoAct j g ∈ no_activity_rows db inactive_days lookback_days := by
  have hla : last_activity db.applications j.opportunity_id = none := by
    unfold last_activity
    rw [hnone]
    rfl
  refine ⟨hla, ?_⟩
  rw [mem_no_activity_rows]
  refine ⟨j, g, hj, hg, hpg, ?_, rfl⟩
  unfold no_activity_pred
  rw [hla]
  simp [beq_iff_eq, hrev, hst, hlo, business_line_ok_iff, hbl]

/-- Witness for C3 at a concrete database: `job5` has no activity rows and
is included by the `no-activity` query. -/
theorem no_activity_null_activity_witness :
    last_activity exampleDB.applications job5.opportunity_id = none
    ∧ projNoAct job5 genomeA ∈ no_activity_rows exampleDB 7 30 :=
  no_activity_null_activity_included exampleDB 7 30 job5 genomeA (by decide) (by decide)
    (by decide) (by decide) (by decide) (by decide) (by decide) (by decide) (by decide)

/-- C5 (amended): the `new-ts-posting` and `less-than-6` queries restrict the
publish date to the half-open window `[today - days, today + 1)`; the
`no-activity` query applies only the lower bound `today - lookback_days`
(its SQL has no `published_date < current_date + 1 day` clause). -/
theorem flag_window_bounds (db : DB) (days inactive_days lookback_days : Int) :
    (∀ r : NewTsRow, r ∈ new_ts_rows db days →
        db.today - days ≤ r.published_date ∧ r.published_date < db.today + 1)
    ∧ (∀ r : LessThan6Row, r ∈ less6_rows db days →
        db.today - days ≤ r.published_date ∧ r.published_date < db.today + 1)
    ∧ (∀ r : NoActivityRow, r ∈ no_activity_rows db inactive_days lookback_days →
        db.today - lookback_days ≤ r.published_date) := by
  refine ⟨fun r hr => ?_, fun r hr => ?_, fun r hr => ?_⟩
  · rw [mem_new_ts_rows] at hr
    obtain ⟨j, g, -, -, -, hp, hproj⟩ := hr
    rw [new_ts_pred_iff] at hp
    rw [← hproj]
    exact ⟨hp.2.2.1, hp.2.2.2.1⟩
  · rw [mem_less6_rows] at hr
    obtain ⟨j, g, -, -, -, hp, hproj⟩ := hr
    rw [less6_pred_iff] at hp
    rw [← hproj]
    exact ⟨hp.2.2.2.1, hp.2.2.2.2.1⟩
  · rw [mem_no_activity_rows] at hr
    obtain ⟨j, g, -, -, -, hp, hproj⟩ := hr
    simp only [no_activity_pred, Bool.and_eq_true, decide_eq_true_eq] at hp
    have hlo : db.today - lookback_days ≤ j.published_date := by tauto
    rw [← hproj]
    exact hlo

/-- Counterexample to C5 as stated: a posting published on day 200 with
`today = 100` (on/after tomorrow) is nevertheless returned by the
`no-activity` query, because that query lacks the upper window bound. -/
theorem flag_window_counterexample :
    projNoAct jobFuture genomeA ∈ no_activity_rows futureDB 7 30
    ∧ futureDB.today + 1 ≤ (projNoAct jobFuture genomeA).published_date := by
  decide

/-- Witness for the amended C5 at a concrete database: the row of `job5` in
the `less-than-6` result satisfies both window bounds. -/
theorem flag_window_bounds_witness :
    exampleDB.today - 30 ≤ (projLess6 job5 genomeA).published_date
    ∧ (projLess6 job5 genomeA).published_date < exampleDB.today + 1 :=
  (flag_window_bounds exampleDB 30 7 30).2.1 (projLess6 job5 genomeA) (by decide)

/-- C2: for every outcome of the three sub-flags, the all-priorities endpoint
embeds the full results of `new_ts_posting (days)`, `less_than_6 (days)` and
`no_activity (inactive_days = 7, lookback = days)`, reports top-level
success, and sums the three counts into `total_clients_to_contact`, a failed
sub-flag (its `.get("count", 0)`) contributing 0. -/
theorem all_priorities_spec (p : Poseidon) (days : Int) :
    ((get_all_high_priority_flags p days).success = true)
    ∧ ((get_all_high_priority_flags p days).new_ts_posting = get_new_ts_posting p days)
    ∧ ((get_all_high_priority_flags p days).less_than_6 = get_less_than_6 p days)
    ∧ ((get_all_high_priority_flags p days).no_activity = get_no_activity p 7 days)
    ∧ ((get_all_high_priority_flags p days).total_clients_to_contact =
        (get_new_ts_posting p days).getCount + (get_less_than_6 p days).getCount +
          (get_no_activity p 7 days).getCount)
    ∧ ((get_all_high_priority_flags p days).breakdown_new_ts_posting =
        (get_new_ts_posting p days).getCount)
    ∧ ((get_all_high_priority_flags p days).breakdown_less_than_6 =
        (get_less_than_6 p days).getCount)
    ∧ ((get_all_high_priority_flags p days).breakdown_no_activity =
        (get_no_activity p 7 days).getCount)
    ∧ (∀ e, NewTsResult.getCount (NewTsResult.err e) = 0)
    ∧ (∀ e, LessThan6Result.getCount (LessThan6Result.err e) = 0)
    ∧ (∀ e, NoActivityResult.getCount (NoActivityResult.err e) = 0)
    ∧ (∀ e, get_new_ts_posting p days = NewTsResult.err e →
        (get_all_high_priority_flags p days).new_ts_posting = NewTsResult.err e
        ∧ (get_all_high_priority_flags p days).total_clients_to_contact =
            (get_less_than_6 p days).getCount + (get_no_activity p 7 days).getCount) := by
  refine ⟨rfl, rfl, rfl, rfl, rfl, rfl, rfl, rfl, fun e => rfl, fun e => rfl, fun e => rfl,
    fun e he => ⟨?_, ?_⟩⟩
  · show get_new_ts_posting p days = NewTsResult.err e
    exact he
  · show (get_new_ts_posting p days).getCount + (get_less_than_6 p days).getCount +
        (get_no_activity p 7 days).getCount =
      (get_less_than_6 p days).getCount + (get_no_activity p 7 days).getCount
    rw [he]
    simp [NewTsResult.getCount, Nat.add_assoc]

/-- Witness for C2 at a concrete connection on which the `new-ts-posting`
query raises: its failure payload is embedded and contributes 0 to the total. -/
theorem all_priorities_witness :
    (get_all_high_priority_flags pFailNew 30).new_ts_posting = NewTsResult.err "boom"
    ∧ (get_all_high_priority_flags pFailNew 30).total_clients_to_contact =
        (get_less_than_6 pFailNew 30).getCount + (get_no_activity pFailNew 7 30).getCount :=
  (all_priorities_spec pFailNew 30).2.2.2.2.2.2.2.2.2.2.2 "boom" rfl

/-- C8: whenever query execution raises in one of the three flag endpoints,
the endpoint catches it and returns the `{success: false, error: e}` body
carrying the raw message, instead of propagating an exception. -/
theorem flag_error_handling (p : Poseidon) :
    (∀ days e, p.fail (QueryId.newTs days) = some e →
        get_new_ts_posting p days = NewTsResult.err e
        ∧ (get_new_ts_posting p days).success = false)
    ∧ (∀ days e, p.fail (QueryId.less6 days) = some e →
        get_less_than_6 p days = LessThan6Result.err e
        ∧ (get_less_than_6 p days).success = false)
    ∧ (∀ i l e, p.fail (QueryId.noActivity i l) = some e →
        get_no_activity p i l = NoActivityResult.err e
        ∧ (get_no_activity p i l).success = false) := by
  refine ⟨fun days e he => ?_, fun days e he => ?_, fun i l e he => ?_⟩
  · unfold get_new_ts_posting
    rw [he]
    exact ⟨rfl, rfl⟩
  · unfold get_less_than_6
    rw [he]
    exact ⟨rfl, rfl⟩
  · unfold get_no_activity
    rw [he]
    exact ⟨rfl, rfl⟩

/-- Witness for C8 at a concrete connection whose `new-ts-posting` query
raises with message `"boom"`. -/
theorem flag_error_handling_witness :
    get_new_ts_posting pFailNew 7 = NewTsResult.err "boom"
    ∧ (get_new_ts_posting pFailNew 7).success = false :=
  (flag_error_handling pFailNew).1 7 "boom" rfl

/-- C7: in every flag endpoint, each matched row is shaped with a missing
title defaulted to `"Untitled Position"` and a missing organization to
`"Company"`, the industry field is the classifier applied to those defaulted
values, the job-posting URL is `https://torre.ai/post/` followed by the hash
id, and the shaped record of every result row appears in the endpoint's
`data` payload. -/
theorem result_shaping_spec :
    (∀ r : NewTsRow,
        (shapeNewTs r).vacancy_name = orDefault r.vacancy_name "Untitled Position"
        ∧ (shapeNewTs r).company_name = orDefault r.company_name "Company"
        ∧ (shapeNewTs r).industry =
            detect_industry (orDefault r.vacancy_name "Untitled Position")
              (orDefault r.company_name "Company")
        ∧ (shapeNewTs r).vacancy_link = "https://torre.ai/post/" ++ r.hash_id)
    ∧ (∀ r : LessThan6Row,
        (shapeLess6 r).vacancy_name = orDefault r.vacancy_name "Untitled Position"
        ∧ (shapeLess6 r).company_name = orDefault r.company_name "Company"
        ∧ (shapeLess6 r).industry =
            detect_industry (orDefault r.vacancy_name "Untitled Position")
              (orDefault r.company_name "Company")
        ∧ (shapeLess6 r).vacancy_link = "https://torre.ai/post/" ++ r.hash_id)
    ∧ (∀ r : NoActivityRow,
        (shapeNoAct r).vacancy_name = orDefault r.vacancy_name "Untitled Position"
        ∧ (shapeNoAct r).company_name = orDefault r.company_name "Company"
        ∧ (shapeNoAct r).industry =
            detect_industry (orDefault r.vacancy_name "Untitled Position")
              (orDefault r.company_name "Company")
        ∧ (shapeNoAct r).vacancy_link = "https://torre.ai/post/" ++ r.hash_id)
    ∧ (∀ p days r, p.fail (QueryId.newTs days) = none → r ∈ new_ts_rows p.db days →
        ∃ fl de c lb dat, get_new_ts_posting p days = NewTsResult.ok fl de c lb dat
          ∧ shapeNewTs r ∈ dat)
    ∧ (∀ p days r, p.fail (QueryId.less6 days) = none → r ∈ less6_rows p.db days →
        ∃ fl de c lb dat, get_less_than_6 p days = LessThan6Result.ok fl de c lb dat
          ∧ shapeLess6 r ∈ dat)
    ∧ (∀ p i l r, p.fail (QueryId.noActivity i l) = none →
        r ∈ no_activity_rows p.db i l →
        ∃ fl de c it lb dat, get_no_activity p i l = NoActivityResult.ok fl de c it lb dat
          ∧ shapeNoAct r ∈ dat) := by
  refine ⟨fun r => ⟨rfl, rfl, rfl, rfl⟩, fun r => ⟨rfl, rfl, rfl, rfl⟩,
    fun r => ⟨rfl, rfl, rfl, rfl⟩, ?_, ?_, ?_⟩
  · intro p days r hf hr
    have hok : get_new_ts_posting p days =
        NewTsResult.ok "new_ts_posting"
          "TSs posting for the first time (includes approved & unapproved)"
          ((new_ts_rows p.db days).map shapeNewTs).length days
          ((new_ts_rows p.db days).map shapeNewTs) := by
      unfold get_new_ts_posting
      rw [hf]
    exact ⟨_, _, _, _, _, hok, List.mem_map_of_mem shapeNewTs hr⟩
  · intro p days r hf hr
    have hok : get_less_than_6 p days =
        LessThan6Result.ok "less_than_6"
          "Approved openings with less than 6 relevant applicants"
          ((less6_rows p.db days).map shapeLess6).length days
          ((less6_rows p.db days).map shapeLess6) := by
      unfold get_less_than_6
      rw [hf]
    exact ⟨_, _, _, _, _, hok, List.mem_map_of_mem shapeLess6 hr⟩
  · intro p i l r hf hr
    have hok : get_no_activity p i l =
        NoActivityResult.ok "no_activity"
          ("Approved jobs with no activity in pipeline for " ++ toString i ++ "+ days")
          ((no_activity_rows p.db i l).map shapeNoAct).length i l
          ((no_activity_rows p.db i l).map shapeNoAct) := by
      unfold get_no_activity
      rw [hf]
    exact ⟨_, _, _, _, _, _, hok, List.mem_map_of_mem shapeNoAct hr⟩

/-- Witness for C7 at a concrete connection: the shaped record of `job5`
appears in the `data` payload of the `new-ts-posting` endpoint. -/
theorem result_shaping_witness :
    ∃ fl de c lb dat, get_new_ts_posting pOK 7 = NewTsResult.ok fl de c lb dat
      ∧ shapeNewTs (projNewTs job5 genomeA) ∈ dat :=
  result_shaping_spec.2.2.2.1 pOK 7 (projNewTs job5 genomeA) rfl (by decide)

/-- C9: the client-lookup endpoint signals the 404 `NotFound` exactly when no
poster profile matches the given email; when one matches, it returns the
success payload with that poster's distinct posting count, distinct open
posting count, and first/last publish dates; any execution failure instead
yields the `{success: false, error: e}` body. -/
theorem client_details_spec (p : Poseidon) (email : String) :
    (∀ e, p.fail (QueryId.client email) = some e →
        get_client_details p email = ClientResult.err e)
    ∧ (p.fail (QueryId.client email) = none →
        ((get_client_details p email = ClientResult.notFound ↔
            ∀ g ∈ p.db.genomes, ¬ g.email = email)
         ∧ (∀ g rest, p.db.genomes.filter (fun x => x.email == email) = g :: rest →
             get_client_details p email = ClientResult.ok
               { name := g.name, email := g.email, gg_id := g.gg_id,
                 total_jobs_posted := (dedupF ((p.db.jobs.filter
                     (fun j => j.poster_gg_id == g.gg_id)).map (fun j => j.hash_id))).length,
                 open_jobs := (dedupF (((p.db.jobs.filter
                     (fun j => j.poster_gg_id == g.gg_id)).filter
                     (fun j => j.status == "open")).map (fun j => j.hash_id))).length,
                 first_job_date := minDate ((p.db.jobs.filter
                     (fun j => j.poster_gg_id == g.gg_id)).map (fun j => j.published_date)),
                 last_job_date := maxDate ((p.db.jobs.filter
                     (fun j => j.poster_gg_id == g.gg_id)).map
                     (fun j => j.published_date)) }))) := by
  refine ⟨fun e he => ?_, fun hn => ⟨?_, ?_⟩⟩
  · unfold get_client_details
    rw [he]
  · unfold get_client_details
    rw [hn]
    constructor
    · intro h
      cases hcr : client_rows p.db email with
      | nil =>
          have hkeys := hcr
          unfold client_rows at hkeys
          rw [List.map_eq_nil_iff, dedupF_eq_nil, List.map_eq_nil_iff,
            List.filter_eq_nil_iff] at hkeys
          intro g hg
          simpa using hkeys g hg
      | cons r rs =>
          rw [hcr] at h
          exact ClientResult.noConfusion h
    · intro hall
      have hfil : p.db.genomes.filter (fun g => g.email == email) = [] := by
        rw [List.filter_eq_nil_iff]
        intro g hg
        simpa using hall g hg
      have hcr : client_rows p.db email = [] := by
        unfold client_rows
        rw [hfil]
        rfl
      rw [hcr]
  · intro g rest hfil
    unfold get_client_details
    rw [hn]
    unfold client_rows
    rw [hfil]
    simp only [List.map_cons, dedupF]

/-- Witness for C9 at a concrete database: the known email returns the
aggregated counts (2 postings, both open, published on day 95) and the
unknown email yields the 404 `NotFound` signal. -/
theorem client_details_witness :
    get_client_details pOK "ana@x.co" = ClientResult.ok
      { name := "Ana", email := "ana@x.co", gg_id := 1, total_jobs_posted := 2,
        open_jobs := 2, first_job_date := some 95, last_job_date := some 95 }
    ∧ get_client_details pOK "zz@x.co" = ClientResult.notFound := by
  constructor
  · have h := ((client_details_spec pOK "ana@x.co").2 rfl).2 genomeA [] (by decide)
    rw [h]
    decide
  · exact (((client_details_spec pOK "zz@x.co").2 rfl).1).mpr (by decide)

/-- C10: the health endpoint returns, for every timestamp, the same constant
`available_flags` list of exactly the seven names `new-ts-posting`,
`less-than-6`, `less-than-6-24h`, `6-ruled-out`, `less-than-6-reach`,
`new-reach`, `no-activity`; the four names `less-than-6-24h`, `6-ruled-out`,
`less-than-6-reach` and `new-reach` correspond to no exposed route, and the
exposed `all-priorities` route is absent from the list. -/
theorem health_flags_spec :
    (∀ ts, (health_check ts).available_flags =
      ["new-ts-posting", "less-than-6", "less-than-6-24h", "6-ruled-out",
       "less-than-6-reach", "new-reach", "no-activity"])
    ∧ "/flags/less-than-6-24h" ∉ EXPOSED_ROUTES
    ∧ "/flags/6-ruled-out" ∉ EXPOSED_ROUTES
    ∧ "/flags/less-than-6-reach" ∉ EXPOSED_ROUTES
    ∧ "/flags/new-reach" ∉ EXPOSED_ROUTES
    ∧ "/flags/all-priorities" ∈ EXPOSED_ROUTES
    ∧ "all-priorities" ∉ AVAILABLE_FLAGS
    ∧ "/flags/new-ts-posting" ∈ EXPOSED_ROUTES
    ∧ "/flags/less-than-6" ∈ EXPOSED_ROUTES
    ∧ "/flags/no-activity" ∈ EXPOSED_ROUTES := by
  refine ⟨fun ts => rfl, ?_, ?_, ?_, ?_, ?_, ?_, ?_, ?_, ?_⟩ <;> decide

/-- Counterexample to C6 as stated: for `technology` the keyword list the
`/industries` endpoint returns differs from the keyword list the classifier
tests (the endpoint omits `programmer`, `devops`, `frontend`, `backend`). -/
theorem industries_keywords_mismatch :
    industriesKeywords "technology" =
      some ["developer", "engineer", "software", "tech", "data", "cloud"]
    ∧ classifierKeywords "technology" =
      some ["developer", "engineer", "software", "programmer", "tech", "data",
            "cloud", "devops", "frontend", "backend"]
    ∧ industriesKeywords "technology" ≠ classifierKeywords "technology" := by
  decide

/-- C6 (amended): `GET /industries` returns a static listing of exactly the
eight fixed categories in order, and for each category every keyword it
returns is among the keywords the classifier tests for that category — with
equality of the two lists only for `design` and `general`. -/
theorem industries_listing_spec :
    get_available_industries.map (fun e => e.1) = INDUSTRY_CATEGORIES
    ∧ INDUSTRY_CATEGORIES.all keywordsSubset = true
    ∧ industriesKeywords "design" = classifierKeywords "design"
    ∧ industriesKeywords "general" = classifierKeywords "general"
    ∧ industriesKeywords "sales_marketing" ≠ classifierKeywords "sales_marketing"
    ∧ industriesKeywords "finance" ≠ classifierKeywords "finance"
    ∧ industriesKeywords "healthcare" ≠ classifierKeywords "healthcare"
    ∧ industriesKeywords "operations_hr" ≠ classifierKeywords "operations_hr"
    ∧ industriesKeywords "customer_service" ≠ classifierKeywords "customer_service" := by
  refine ⟨?_, ?_, ?_, ?_, ?_, ?_, ?_, ?_, ?_⟩ <;> decide
